import Mathlib

/-!
Shallow embedding of `double_udp` (src/main.go): the Router (component
registry, tag-based dispatch via `Route`, buffer pool `GetBuffer` and
`PutBuffer`, lifecycle via `StartAll` and `StopAll`) and the component
setup loop of `main`.

Modelling conventions:
- Go maps are modelled as association lists; the Go map iteration order is
  unspecified, the list order is one determinization of it.
- A Go method that mutates the receiver and returns `error` is modelled as
  a function returning the new state together with `Option String` (the
  error), so that state on the failure path is explicit.
- Calls to `log.Printf` and the `HandlePacket` invocations made by `Route`
  are reified as event lists, so that theorems can speak about which calls
  were made and in which order.
- `sync.Pool` is modelled as a free-list stack: `Get` pops a pooled buffer
  if one is available and otherwise calls the `New` closure
  (`make([]byte, config.BufferSize)`). The real `sync.Pool` may also drop
  pooled buffers at GC time; dropping only removes buffers from the pool,
  which makes `Get` fall back to `New`, so the length properties proved
  here are unaffected by that nondeterminism.
- Go `make([]byte, n)` panics for negative `n`; the model clamps a
  negative size to an empty buffer. The claims only exercise sizes ≥ 0,
  and the theorems about exact buffer lengths carry a `0 ≤ size`
  hypothesis.
-/

set_option autoImplicit false

namespace DoubleUdp

/-- Byte buffers handed out by the router's buffer pool (`[]byte`). -/
abbrev Buffer := List UInt8

/-- The unit of data exchanged between components. The field `srcTag` is
used by `Route` in src/main.go. The remaining fields are modelled from the
spec: the `Packet` struct itself is declared outside src/ (§3 of the spec:
payload borrowed from the pool, its logical length, and addressing
metadata for replies); none of them is inspected by the code under src/. -/
structure Packet where
  payload : Buffer
  length : Nat
  srcTag : String
  peerAddr : String
  deriving Repr, DecidableEq

/-- ComponentConfig from src/main.go (JSON field names dropped). Go `int`
fields are modelled as `Int`. -/
structure ComponentConfig where
  type : String
  tag : String
  listenAddr : String
  bufferSize : Int
  timeout : Int
  replaceOldConns : Bool
  forwarders : List String
  queueSize : Int
  reconnectInterval : Int
  connectionCheckTime : Int
  detour : List String
  deriving Repr, DecidableEq

/-- Top-level Config from src/main.go. -/
structure Config where
  bufferSize : Int
  services : List ComponentConfig
  deriving Repr, DecidableEq

/-- The two known component kinds constructed by `main` (src/main.go,
switch on `cfg.Type`). -/
inductive CompKind where
  | listen
  | forward
  deriving Repr, DecidableEq

/-- A registered component, seen through the `Component` interface of
src/main.go: `GetTag` is the `tag` field, and the outcomes of `Start`,
`Stop` and `HandlePacket` (each a Go `error`, `none` meaning `nil`) are
data of the record, since the interface says nothing about how they are
computed. `kind` and `buildCfg` record, for components built by the
constructors called from `main`, which constructor ran and with which
configuration. -/
structure Component where
  tag : String
  start : Option String
  stop : Option String
  handlePacket : Packet → Option String
  kind : Option CompKind
  buildCfg : Option ComponentConfig

/-- Router state from src/main.go: the tag → Component registry
(`components`, a Go map modelled as an association list) and the buffer
pool (`bufferPool`, modelled as the captured size of the `New` closure
plus the free list of pooled buffers). -/
structure Router where
  components : List (String × Component)
  poolSize : Int
  pool : List Buffer

/-- `make([]byte, n)`: a zero-filled buffer of length `n` (clamped at 0;
Go panics for negative `n`). -/
def newBuf (n : Int) : Buffer :=
  List.replicate n.toNat 0

/-- NewRouter (src/main.go lines 51-61): empty registry, and a pool whose
`New` closure captures `config.BufferSize`. -/
def NewRouter (config : Config) : Router :=
  { components := [], poolSize := config.bufferSize, pool := [] }

/-- GetBuffer (src/main.go lines 64-66): `bufferPool.Get()` pops a pooled
buffer if one is available and otherwise allocates via the `New` closure. -/
def GetBuffer (r : Router) : Router × Buffer :=
  match r.pool with
  | [] => (r, newBuf r.poolSize)
  | b :: rest => ({ r with pool := rest }, b)

/-- PutBuffer (src/main.go lines 69-71): returns a buffer to the pool. -/
def PutBuffer (r : Router) (buf : Buffer) : Router :=
  { r with pool := buf :: r.pool }

/-- Register (src/main.go lines 74-89): empty tag and duplicate tag fail
with an error and leave the receiver unchanged; otherwise the component is
inserted under its tag. -/
def Register (r : Router) (c : Component) : Option String × Router :=
  let tag := c.tag
  if tag = "" then
    (some "component has empty tag", r)
  else if (r.components.lookup tag).isSome then
    (some ("component with tag " ++ tag ++ " already registered"), r)
  else
    (none, { r with components := (tag, c) :: r.components })

/-- GetComponent (src/main.go lines 92-97): registry lookup; the Go
`(Component, bool)` pair is an `Option`. -/
def GetComponent (r : Router) (tag : String) : Option Component :=
  r.components.lookup tag

/-- What `Route` did for one entry of `destTags`: skipped it as the
source tag, logged a missing-component warning, or invoked `HandlePacket`
(recording the returned error, `none` for `nil`). -/
inductive RouteEvent where
  | selfSkip (tag : String)
  | missingWarn (tag : String)
  | handled (tag : String) (result : Option String)
  deriving Repr, DecidableEq

/-- The body of `Route`'s loop for a single destination tag
(src/main.go lines 101-115). -/
def routeStep (r : Router) (packet : Packet) (tag : String) : RouteEvent :=
  if tag = packet.srcTag then
    .selfSkip tag
  else
    match GetComponent r tag with
    | none => .missingWarn tag
    | some c => .handled tag (c.handlePacket packet)

/-- The loop of Route (src/main.go lines 101-115), reified as the list of
events in execution order. -/
def routeAux (r : Router) (packet : Packet) : List String → List RouteEvent
  | [] => []
  | tag :: rest =>
    if tag = packet.srcTag then
      .selfSkip tag :: routeAux r packet rest
    else
      match GetComponent r tag with
      | none => .missingWarn tag :: routeAux r packet rest
      | some c => .handled tag (c.handlePacket packet) :: routeAux r packet rest

/-- Route (src/main.go lines 100-117): the events of the loop, paired with
the function's return value (`return nil` on line 116). -/
def Route (r : Router) (packet : Packet) (destTags : List String) :
    List RouteEvent × Option String :=
  (routeAux r packet destTags, none)

/-- The loop of StartAll over the registry: returns the tags on which
`Start` was invoked, in order, and the error StartAll returns. The first
failing `Start` returns immediately with a wrapped error naming the tag
(src/main.go lines 124-129). -/
def startAllAux : List (String × Component) → List String × Option String
  | [] => ([], none)
  | (tag, c) :: rest =>
    match c.start with
    | some e => ([tag], some ("failed to start component " ++ tag ++ ": " ++ e))
    | none =>
      let res := startAllAux rest
      (tag :: res.1, res.2)

/-- StartAll (src/main.go lines 120-131). -/
def StartAll (r : Router) : List String × Option String :=
  startAllAux r.components

/-- The loop of StopAll: invokes `Stop` on every entry, recording each
invocation with its returned error; an error is logged and the loop
continues (src/main.go lines 138-143). -/
def stopAllAux : List (String × Component) → List (String × Option String)
  | [] => []
  | (tag, c) :: rest => (tag, c.stop) :: stopAllAux rest

/-- StopAll (src/main.go lines 134-144). -/
def StopAll (r : Router) : List (String × Option String) :=
  stopAllAux r.components

/-- Modelled from the spec: the outcomes of a component's `Start`, `Stop`
and `HandlePacket` depend on socket I/O performed by the listener and
forwarder implementations, whose code is not under src/; the model takes
those outcomes as a parameter chosen per configuration (an environment). -/
structure Behavior where
  start : Option String
  stop : Option String
  handlePacket : Packet → Option String

/-- An environment assigning I/O outcomes to each component configuration. -/
abbrev Env := ComponentConfig → Behavior

/-- Modelled from the spec: `NewListenComponent` is declared outside src/.
Per §4.3 it builds a listener component from its configuration and a
router reference; its `GetTag` is the configured tag, and its I/O
behavior comes from the environment. The record keeps the configuration
it was constructed with. -/
def NewListenComponent (env : Env) (cfg : ComponentConfig) (r : Router) : Component :=
  { tag := cfg.tag
    start := (env cfg).start
    stop := (env cfg).stop
    handlePacket := (env cfg).handlePacket
    kind := some .listen
    buildCfg := some cfg }

/-- Modelled from the spec: `NewForwardComponent` is declared outside
src/. Per §4.4 it builds a forwarder component from its configuration and
a router reference; its `GetTag` is the configured tag, and its I/O
behavior comes from the environment. The record keeps the configuration
it was constructed with. -/
def NewForwardComponent (env : Env) (cfg : ComponentConfig) (r : Router) : Component :=
  { tag := cfg.tag
    start := (env cfg).start
    stop := (env cfg).stop
    handlePacket := (env cfg).handlePacket
    kind := some .forward
    buildCfg := some cfg }

/-- The per-service buffer-size fallback of `main`
(src/main.go lines 168-171): a value ≤ 0 is replaced by the router-wide
default. -/
def effectiveCfg (globalSize : Int) (cfg : ComponentConfig) : ComponentConfig :=
  if cfg.bufferSize ≤ 0 then { cfg with bufferSize := globalSize } else cfg

/-- The switch on `cfg.Type` in `main` (src/main.go lines 175-183): a
component for a known type, `none` for an unknown type (logged, skipped). -/
def buildComponent (env : Env) (r : Router) (cfg : ComponentConfig) : Option Component :=
  match cfg.type with
  | "listen" => some (NewListenComponent env cfg r)
  | "forward" => some (NewForwardComponent env cfg r)
  | _ => none

/-- Log lines produced by the setup loop of `main`. -/
inductive SetupEvent where
  | unknownType (type : String)
  | registerFailed (tag : String) (err : String)
  deriving Repr, DecidableEq

/-- Result of the setup loop of `main`: the router after all
registrations, the components that were constructed (in order), and the
log lines. -/
structure SetupResult where
  router : Router
  built : List Component
  logs : List SetupEvent

/-- The setup loop of `main` (src/main.go lines 167-188): for each
service, apply the buffer-size fallback, construct a component by type
(skipping unknown types with a log line), and register it (a registration
failure is logged and the loop continues). -/
def setupServices (env : Env) (globalSize : Int) :
    Router → List ComponentConfig → SetupResult
  | r, [] => ⟨r, [], []⟩
  | r, cfg :: rest =>
    let cfg := effectiveCfg globalSize cfg
    match buildComponent env r cfg with
    | none =>
      let res := setupServices env globalSize r rest
      ⟨res.router, res.built, .unknownType cfg.type :: res.logs⟩
    | some comp =>
      match Register r comp with
      | (some e, r2) =>
        let res := setupServices env globalSize r2 rest
        ⟨res.router, comp :: res.built, .registerFailed cfg.tag e :: res.logs⟩
      | (none, r2) =>
        let res := setupServices env globalSize r2 rest
        ⟨res.router, comp :: res.built, res.logs⟩

/-- How `main` ends its setup phase: `log.Fatalf` on StartAll failure, or
running (waiting indefinitely). -/
inductive MainOutcome where
  | fatal (msg : String)
  | running
  deriving Repr, DecidableEq

/-- The core pipeline of `main` after configuration parsing
(src/main.go lines 164-196): build the router, run the setup loop, start
all components, and die fatally if StartAll fails. -/
def runMain (env : Env) (config : Config) : MainOutcome × SetupResult :=
  let router := NewRouter config
  let res := setupServices env config.bufferSize router config.services
  match (StartAll res.router).2 with
  | some e => (.fatal ("Failed to start components: " ++ e), res)
  | none => (.running, res)

/-- One client call against the buffer pool. -/
inductive PoolOp where
  | get
  | put (buf : Buffer)

/-- Run a sequence of pool operations against the router, collecting the
buffers returned by the `get` calls in order. -/
def runPool : Router → List PoolOp → Router × List Buffer
  | r, [] => (r, [])
  | r, .get :: ops =>
    let res := GetBuffer r
    let rest := runPool res.1 ops
    (rest.1, res.2 :: rest.2)
  | r, .put b :: ops => runPool (PutBuffer r b) ops

/-! Concrete fixtures used to evaluate the theorems on closed inputs. -/

/-- A forwarder-like component with tag `F` whose calls all succeed. -/
def compF : Component :=
  { tag := "F", start := none, stop := none, handlePacket := fun _ => none,
    kind := some .forward, buildCfg := none }

/-- A component with tag `a` whose calls all succeed. -/
def compA : Component :=
  { tag := "a", start := none, stop := none, handlePacket := fun _ => none,
    kind := none, buildCfg := none }

/-- A component with tag `b` whose `Start` fails. -/
def compB : Component :=
  { tag := "b", start := some "bind failed", stop := none,
    handlePacket := fun _ => none, kind := none, buildCfg := none }

/-- A router with `F` registered and a pool of configured size 4. -/
def routerW : Router :=
  { components := [("F", compF)], poolSize := 4, pool := [] }

/-- A router on which `StartAll` hits a failure at the second entry. -/
def routerStartW : Router :=
  { components := [("a", compA), ("b", compB)], poolSize := 4, pool := [] }

/-- A packet originating at tag `L`. -/
def packetW : Packet :=
  { payload := [], length := 0, srcTag := "L", peerAddr := "peer" }

/-- A listener configuration with tag `lf` and no per-component buffer
size. -/
def cfgListenW : ComponentConfig :=
  { type := "listen", tag := "lf", listenAddr := "127.0.0.1:9000",
    bufferSize := 0, timeout := 30, replaceOldConns := false,
    forwarders := [], queueSize := 0, reconnectInterval := 0,
    connectionCheckTime := 0, detour := ["F"] }

/-- A service entry with an unknown type. -/
def cfgBadW : ComponentConfig :=
  { type := "tcp", tag := "t", listenAddr := "", bufferSize := 8,
    timeout := 0, replaceOldConns := false, forwarders := [],
    queueSize := 0, reconnectInterval := 0, connectionCheckTime := 0,
    detour := [] }

/-- An environment in which every component's `Start` fails with `boom`. -/
def envFailW : Env :=
  fun _ => { start := some "boom", stop := none, handlePacket := fun _ => none }

/-- An environment in which every call succeeds. -/
def envOkW : Env :=
  fun _ => { start := none, stop := none, handlePacket := fun _ => none }

/-- A configuration with one listener service and default buffer size 0. -/
def configW : Config :=
  { bufferSize := 0, services := [cfgListenW] }

/-! Helper lemmas about the embedded definitions. -/

theorem lookup_isSome_iff (l : List (String × Component)) (a : String) :
    (l.lookup a).isSome ↔ a ∈ l.map Prod.fst := by
  induction l with
  | nil => simp [List.lookup]
  | cons kv rest ih =>
    obtain ⟨k, v⟩ := kv
    by_cases h : a = k
    · subst h
      simp [List.lookup]
    · have hbeq : (a == k) = false := beq_eq_false_iff_ne.mpr h
      simp [List.lookup, hbeq, h, ih]

theorem mem_of_lookup_some {l : List (String × Component)} {a : String}
    {c : Component} (h : l.lookup a = some c) : (a, c) ∈ l := by
  induction l with
  | nil => simp [List.lookup] at h
  | cons kv rest ih =>
    obtain ⟨k, v⟩ := kv
    by_cases hk : a = k
    · subst hk
      simp only [List.lookup, beq_self_eq_true] at h
      injection h with h2
      subst h2
      exact List.mem_cons_self _ _
    · have hbeq : (a == k) = false := beq_eq_false_iff_ne.mpr hk
      simp only [List.lookup, hbeq] at h
      exact List.mem_cons_of_mem _ (ih h)

theorem routeAux_eq_map (r : Router) (p : Packet) (tags : List String) :
    routeAux r p tags = tags.map (routeStep r p) := by
  induction tags with
  | nil => rfl
  | cons t rest ih =>
    by_cases h : t = p.srcTag
    · simp [routeAux, routeStep, h, ih]
    · cases hc : GetComponent r t <;> simp [routeAux, routeStep, h, hc, ih]

theorem buildComponent_router_irrelevant (env : Env) (cfg : ComponentConfig)
    (r r2 : Router) : buildComponent env r cfg = buildComponent env r2 cfg := by
  unfold buildComponent
  split <;> rfl

theorem effectiveCfg_type (g : Int) (cfg : ComponentConfig) :
    (effectiveCfg g cfg).type = cfg.type := by
  unfold effectiveCfg
  split <;> rfl

theorem buildComponent_unknown (env : Env) (r : Router) (cfg : ComponentConfig)
    (h1 : cfg.type ≠ "listen") (h2 : cfg.type ≠ "forward") :
    buildComponent env r cfg = none := by
  unfold buildComponent
  split
  · exact absurd (by assumption) h1
  · exact absurd (by assumption) h2
  · rfl

theorem setupServices_append (env : Env) (g : Int) (xs ys : List ComponentConfig)
    (r : Router) :
    setupServices env g r (xs ++ ys) =
      ⟨(setupServices env g (setupServices env g r xs).router ys).router,
       (setupServices env g r xs).built
         ++ (setupServices env g (setupServices env g r xs).router ys).built,
       (setupServices env g r xs).logs
         ++ (setupServices env g (setupServices env g r xs).router ys).logs⟩ := by
  induction xs generalizing r with
  | nil => simp [setupServices]
  | cons c xs ih =>
    simp only [List.cons_append, setupServices]
    cases hb : buildComponent env r (effectiveCfg g c) with
    | none => simp [ih]
    | some comp =>
      cases hreg : Register r comp with
      | mk err r2 =>
        cases err <;> simp [hreg, ih]

theorem setupServices_built (env : Env) (g : Int) (services : List ComponentConfig)
    (r : Router) :
    (setupServices env g r services).built
      = services.filterMap (fun cfg => buildComponent env r (effectiveCfg g cfg)) := by
  induction services generalizing r with
  | nil => rfl
  | cons c rest ih =>
    simp only [setupServices, List.filterMap_cons]
    cases hb : buildComponent env r (effectiveCfg g c) with
    | none =>
      simp [ih]
    | some comp =>
      cases hreg : Register r comp with
      | mk err r2 =>
        have hmaps : (fun cfg => buildComponent env r2 (effectiveCfg g cfg))
            = (fun cfg => buildComponent env r (effectiveCfg g cfg)) :=
          funext fun cfg => buildComponent_router_irrelevant env (effectiveCfg g cfg) r2 r
        cases err <;> simp [hreg, ih, hmaps]

theorem runPool_poolSize (ops : List PoolOp) (r : Router) :
    (runPool r ops).1.poolSize = r.poolSize := by
  induction ops generalizing r with
  | nil => rfl
  | cons op ops ih =>
    cases op with
    | get =>
      cases hp : r.pool <;> simp [runPool, GetBuffer, hp, ih]
    | put b => simp [runPool, PutBuffer, ih]

theorem runPool_lengths (s : Int) (ops : List PoolOp) (r : Router)
    (hs : r.poolSize = s)
    (hpool : ∀ b ∈ r.pool, s ≤ (b.length : Int))
    (hput : ∀ b, PoolOp.put b ∈ ops → s ≤ (b.length : Int)) :
    ∀ b ∈ (runPool r ops).2, s ≤ (b.length : Int) := by
  induction ops generalizing r with
  | nil => simp [runPool]
  | cons op ops ih =>
    cases op with
    | get =>
      cases hp : r.pool with
      | nil =>
        simp only [runPool, GetBuffer, hp]
        intro b hb
        rcases List.mem_cons.mp hb with hb | hb
        · subst hb
          rw [hs]
          calc s ≤ ((s.toNat : Nat) : Int) := Int.self_le_toNat s
            _ = ((newBuf s).length : Int) := by simp [newBuf]
        · refine ih r hs ?_ ?_ b hb
          · intro b2 hb2
            exact hpool b2 hb2
          · intro b2 hb2
            exact hput b2 (List.mem_cons_of_mem _ hb2)
      | cons b0 rest =>
        simp only [runPool, GetBuffer, hp]
        intro b hb
        rcases List.mem_cons.mp hb with hb | hb
        · subst hb
          exact hpool b (by simp [hp])
        · refine ih { r with pool := rest } hs ?_ ?_ b hb
          · intro b2 hb2
            exact hpool b2 (by simp [hp, hb2])
          · intro b2 hb2
            exact hput b2 (List.mem_cons_of_mem _ hb2)
    | put b0 =>
      simp only [runPool]
      intro b hb
      refine ih (PutBuffer r b0) hs ?_ ?_ b hb
      · intro b2 hb2
        simp only [PutBuffer, List.mem_cons] at hb2
        rcases hb2 with hb2 | hb2
        · subst hb2
          exact hput b2 (by simp)
        · exact hpool b2 hb2
      · intro b2 hb2
        exact hput b2 (List.mem_cons_of_mem _ hb2)

theorem startAllAux_first_failure (pre : List (String × Component))
    (tag : String) (c : Component) (post : List (String × Component))
    (e : String) (hpre : ∀ x ∈ pre, x.2.start = none)
    (hc : c.start = some e) :
    startAllAux (pre ++ (tag, c) :: post)
      = (pre.map Prod.fst ++ [tag],
         some ("failed to start component " ++ tag ++ ": " ++ e)) := by
  induction pre with
  | nil => simp [startAllAux, hc]
  | cons x xs ih =>
    obtain ⟨xt, xc⟩ := x
    have hx : xc.start = none := hpre (xt, xc) (List.mem_cons_self _ _)
    have ih2 := ih (fun y hy => hpre y (List.mem_cons_of_mem _ hy))
    simp [startAllAux, hx, ih2]

/-! Claim theorems. -/

/-- C1: `Route` never invokes `HandlePacket` on a component whose tag
equals `packet.srcTag`. Every entry of `destTags` is processed in order by
`routeStep`; an entry equal to the source tag is skipped as a self-loop;
an entry different from the source tag is never skipped as a self-loop;
and every `HandlePacket` invocation recorded by `Route` targets a
component whose tag differs from `packet.srcTag`, given the registry
invariant (established by `Register`) that every component is keyed by its
own tag. -/
theorem route_never_self (r : Router) (p : Packet) (tags : List String)
    (hreg : ∀ e ∈ r.components, e.2.tag = e.1) :
    (Route r p tags).1 = tags.map (routeStep r p)
    ∧ (∀ t ∈ tags, t = p.srcTag → routeStep r p t = RouteEvent.selfSkip t)
    ∧ (∀ t res, RouteEvent.handled t res ∈ (Route r p tags).1 →
        t ≠ p.srcTag ∧ ∃ c, GetComponent r t = some c ∧ c.tag ≠ p.srcTag
          ∧ res = c.handlePacket p)
    ∧ (∀ t ∈ tags, t ≠ p.srcTag → routeStep r p t ≠ RouteEvent.selfSkip t) := by
  refine ⟨routeAux_eq_map r p tags, ?_, ?_, ?_⟩
  · intro t _ ht
    simp [routeStep, ht]
  · intro t res hmem
    have hmem2 : RouteEvent.handled t res ∈ tags.map (routeStep r p) := by
      rw [← routeAux_eq_map]
      exact hmem
    rcases List.mem_map.mp hmem2 with ⟨t0, _, hstep⟩
    by_cases hsrc : t0 = p.srcTag
    · simp [routeStep, hsrc] at hstep
    · cases hc : GetComponent r t0 with
      | none => simp [routeStep, hsrc, hc] at hstep
      | some c =>
        simp only [routeStep, if_neg hsrc, hc] at hstep
        rw [RouteEvent.handled.injEq] at hstep
        obtain ⟨h1, h2⟩ := hstep
        subst h1
        subst h2
        have htag : c.tag = t0 := hreg (t0, c) (mem_of_lookup_some hc)
        exact ⟨hsrc, c, hc, by rw [htag]; exact hsrc, rfl⟩
  · intro t _ hne
    simp only [routeStep, if_neg hne]
    cases GetComponent r t <;> simp

/-- Witness for C1: on a concrete router and a packet from tag `L`, the
entry `L` of the detour list is skipped as a self-loop. -/
theorem route_never_self_witness :
    routeStep routerW packetW "L" = RouteEvent.selfSkip "L" :=
  (route_never_self routerW packetW ["L", "F"]
      (by intro e he; simp [routerW] at he; subst he; rfl)).2.1
    "L" (by simp) rfl

/-- C2: `Route` processes the tags of `destTags` in list order, and a
failure at one destination never aborts the remaining ones: the events of
a list decompose around any middle entry, a tag absent from the registry
produces only a logged warning, and a registered component is invoked
(its error, if any, merely recorded) — in each case the events of the
remaining tags are produced unchanged. -/
theorem route_failure_isolated (r : Router) (p : Packet) (pre : List String)
    (t : String) (post : List String) :
    routeAux r p (pre ++ t :: post)
        = routeAux r p pre ++ routeStep r p t :: routeAux r p post
    ∧ (t ≠ p.srcTag → GetComponent r t = none →
        routeStep r p t = RouteEvent.missingWarn t)
    ∧ (∀ c, t ≠ p.srcTag → GetComponent r t = some c →
        routeStep r p t = RouteEvent.handled t (c.handlePacket p)) := by
  refine ⟨?_, ?_, ?_⟩
  · simp [routeAux_eq_map]
  · intro h1 h2
    simp [routeStep, h1, h2]
  · intro c h1 h2
    simp [routeStep, h1, h2]

/-- Witness for C2: routing to a tag absent from the concrete registry
produces the logged warning event. -/
theorem route_failure_isolated_witness :
    routeStep routerW packetW "X" = RouteEvent.missingWarn "X" :=
  (route_failure_isolated routerW packetW ["F"] "X" ["F"]).2.1
    (by decide) rfl

/-- C3: `Register` fails exactly on an empty or duplicate tag; on success
the component is inserted and the registry grows by one; on failure the
router (hence the original registration) is unchanged; and registration
preserves tag uniqueness of the registry. -/
theorem register_spec (r : Router) (c : Component) :
    ((Register r c).1.isSome ↔ (c.tag = "" ∨ (r.components.lookup c.tag).isSome))
    ∧ ((Register r c).1 = none →
        (Register r c).2.components = (c.tag, c) :: r.components)
    ∧ ((Register r c).1 = none →
        (Register r c).2.components.length = r.components.length + 1)
    ∧ ((Register r c).1.isSome → (Register r c).2 = r)
    ∧ ((r.components.map Prod.fst).Nodup →
        ((Register r c).2.components.map Prod.fst).Nodup) := by
  by_cases h1 : c.tag = ""
  · have hres : Register r c = (some "component has empty tag", r) := by
      simp [Register, h1]
    simp [hres, h1]
  · by_cases h2 : (r.components.lookup c.tag).isSome
    · have hres : Register r c
          = (some ("component with tag " ++ c.tag ++ " already registered"), r) := by
        simp [Register, h1, h2]
      simp [hres, h1, h2]
    · have hres : Register r c
          = (none, { r with components := (c.tag, c) :: r.components }) := by
        simp [Register, h1, h2]
      have hnotmem : c.tag ∉ r.components.map Prod.fst := by
        rw [← lookup_isSome_iff]
        exact h2
      simp [hres, h1, h2, List.nodup_cons, hnotmem]

/-- Witness for C3: registering a second component under the already
registered tag `F` leaves the concrete router unchanged. -/
theorem register_spec_witness :
    (Register routerW compF).2 = routerW :=
  (register_spec routerW compF).2.2.2.1
    ((register_spec routerW compF).1.mpr (Or.inr rfl))

/-- C9: `Route` returns `nil` for every packet and destination list;
missing destinations and `HandlePacket` errors are absorbed (logged), so
callers cannot observe delivery failures through the return value. -/
theorem route_returns_nil (r : Router) (p : Packet) (tags : List String) :
    (Route r p tags).2 = none := rfl

/-- C4: along any sequence of pool operations in which every released
buffer has at least the configured length (as do buffers previously
acquired from the pool), every buffer returned by `GetBuffer` has length
at least the configured size; and on an empty pool `GetBuffer` returns
the router unchanged together with a freshly allocated buffer of the
configured size, rather than blocking or failing. -/
theorem pool_buffer_min_size (r : Router) (ops : List PoolOp)
    (hpool : ∀ b ∈ r.pool, r.poolSize ≤ (b.length : Int))
    (hput : ∀ b, PoolOp.put b ∈ ops → r.poolSize ≤ (b.length : Int)) :
    (∀ b ∈ (runPool r ops).2, r.poolSize ≤ (b.length : Int))
    ∧ (r.pool = [] →
        GetBuffer r = (r, newBuf r.poolSize)
        ∧ r.poolSize ≤ ((newBuf r.poolSize).length : Int)) := by
  refine ⟨runPool_lengths r.poolSize ops r rfl hpool hput, ?_⟩
  intro hp
  refine ⟨by simp [GetBuffer, hp], ?_⟩
  calc r.poolSize ≤ ((r.poolSize.toNat : Nat) : Int) := Int.self_le_toNat _
    _ = ((newBuf r.poolSize).length : Int) := by simp [newBuf]

/-- Witness for C4: on the concrete router with an empty pool of
configured size 4, `GetBuffer` allocates a fresh buffer of size 4. -/
theorem pool_buffer_min_size_witness :
    GetBuffer routerW = (routerW, newBuf routerW.poolSize)
    ∧ routerW.poolSize ≤ ((newBuf routerW.poolSize).length : Int) :=
  (pool_buffer_min_size routerW [PoolOp.get]
      (by intro b hb; simp [routerW] at hb)
      (by intro b hb; simp at hb)).2 rfl

/-- C5: if `StartAll` reaches a component whose `Start` fails, it stops
immediately: `Start` is invoked exactly on the components up to and
including the failing one, the components after it are not started, and
the returned error names the failing component's tag; and `main` turns a
`StartAll` error into a fatal exit. -/
theorem startAll_fail_fast (r : Router) (pre : List (String × Component))
    (tag : String) (c : Component) (post : List (String × Component))
    (e : String) (env : Env) (config : Config) :
    (r.components = pre ++ (tag, c) :: post →
      (∀ x ∈ pre, x.2.start = none) → c.start = some e →
      StartAll r = (pre.map Prod.fst ++ [tag],
        some ("failed to start component " ++ tag ++ ": " ++ e)))
    ∧ (∀ e2,
        (StartAll (setupServices env config.bufferSize (NewRouter config)
            config.services).router).2 = some e2 →
        (runMain env config).1
          = MainOutcome.fatal ("Failed to start components: " ++ e2)) := by
  constructor
  · intro hcomp hpre hc
    unfold StartAll
    rw [hcomp]
    exact startAllAux_first_failure pre tag c post e hpre hc
  · intro e2 h
    unfold runMain
    simp [h]

/-- Witness for C5: on the concrete router whose second component fails
to start, `StartAll` attempts exactly the first two components and
returns the tagged error; and a configuration whose listener fails to
start makes `runMain` fatal. -/
theorem startAll_fail_fast_witness :
    StartAll routerStartW
      = (["a", "b"], some "failed to start component b: bind failed")
    ∧ (runMain envFailW configW).1
      = MainOutcome.fatal
          "Failed to start components: failed to start component lf: boom" := by
  constructor
  · exact (startAll_fail_fast routerStartW [("a", compA)] "b" compB []
      "bind failed" envFailW configW).1 rfl
      (by intro x hx; simp at hx; subst hx; rfl) rfl
  · exact (startAll_fail_fast routerStartW [] "b" compB [] "" envFailW configW).2
      "failed to start component lf: boom" rfl

/-- C6: `StopAll` invokes `Stop` on every registered component exactly
once, in registry order, regardless of how many `Stop` calls fail: the
call list covers exactly the registry entries, and the calls after any
middle entry are made whatever that entry's `Stop` returns. -/
theorem stopAll_every_component (r : Router) (pre : List (String × Component))
    (t : String) (c : Component) (post : List (String × Component)) :
    (StopAll r).map Prod.fst = r.components.map Prod.fst
    ∧ stopAllAux (pre ++ (t, c) :: post)
        = stopAllAux pre ++ (t, c.stop) :: stopAllAux post := by
  have key : ∀ l : List (String × Component),
      (stopAllAux l).map Prod.fst = l.map Prod.fst := by
    intro l
    induction l with
    | nil => rfl
    | cons x xs ih =>
      obtain ⟨xt, xc⟩ := x
      simp [stopAllAux, ih]
  refine ⟨key r.components, ?_⟩
  induction pre with
  | nil => rfl
  | cons x xs ih =>
    obtain ⟨xt, xc⟩ := x
    simp [stopAllAux, ih]

/-- C7: the setup loop of `main` constructs each known-type service from
its configuration after the buffer-size fallback: a per-component
`bufferSize ≤ 0` is replaced by the router-wide default, a positive one
is kept unchanged, and the constructed component records exactly the
configuration it was built from. -/
theorem component_buffer_size_fallback (env : Env) (g : Int) (r : Router)
    (services : List ComponentConfig) :
    (setupServices env g r services).built
        = services.filterMap (fun cfg => buildComponent env r (effectiveCfg g cfg))
    ∧ (∀ cfg : ComponentConfig, cfg.bufferSize ≤ 0 →
        (effectiveCfg g cfg).bufferSize = g)
    ∧ (∀ cfg : ComponentConfig, 0 < cfg.bufferSize → effectiveCfg g cfg = cfg)
    ∧ (∀ cfg comp, buildComponent env r cfg = some comp →
        comp.buildCfg = some cfg) := by
  refine ⟨setupServices_built env g services r, ?_, ?_, ?_⟩
  · intro cfg h
    simp [effectiveCfg, h]
  · intro cfg h
    have h2 : ¬ cfg.bufferSize ≤ 0 := not_le.mpr h
    simp [effectiveCfg, h2]
  · intro cfg comp h
    unfold buildComponent at h
    split at h
    · injection h with h2
      rw [← h2]
      rfl
    · injection h with h2
      rw [← h2]
      rfl
    · exact Option.noConfusion h

/-- Witness for C7: the concrete listener configuration with
`bufferSize = 0` receives the router-wide default 7. -/
theorem component_buffer_size_fallback_witness :
    (effectiveCfg 7 cfgListenW).bufferSize = 7 :=
  (component_buffer_size_fallback envOkW 7 routerW [cfgListenW]).2.1
    cfgListenW (by decide)

/-- C8: a service entry whose type is neither `listen` nor `forward` is
skipped: the resulting router and constructed components are exactly
those of the run without that entry, the entry contributes only an
unknown-type log line, and the log lines of the other entries are
unchanged. -/
theorem unknown_type_entry_skipped (env : Env) (g : Int) (r : Router)
    (pre : List ComponentConfig) (bad : ComponentConfig)
    (post : List ComponentConfig)
    (h1 : bad.type ≠ "listen") (h2 : bad.type ≠ "forward") :
    (setupServices env g r (pre ++ bad :: post)).router
        = (setupServices env g r (pre ++ post)).router
    ∧ (setupServices env g r (pre ++ bad :: post)).built
        = (setupServices env g r (pre ++ post)).built
    ∧ (setupServices env g r (pre ++ bad :: post)).logs
        = (setupServices env g r pre).logs
          ++ SetupEvent.unknownType bad.type
            :: (setupServices env g (setupServices env g r pre).router post).logs
    ∧ (setupServices env g r (pre ++ post)).logs
        = (setupServices env g r pre).logs
          ++ (setupServices env g (setupServices env g r pre).router post).logs := by
  have hb : ∀ r2 : Router, buildComponent env r2 (effectiveCfg g bad) = none := by
    intro r2
    apply buildComponent_unknown
    · rw [effectiveCfg_type]
      exact h1
    · rw [effectiveCfg_type]
      exact h2
  have hsingle : ∀ r2 : Router, setupServices env g r2 (bad :: post)
      = ⟨(setupServices env g r2 post).router,
         (setupServices env g r2 post).built,
         SetupEvent.unknownType (effectiveCfg g bad).type
           :: (setupServices env g r2 post).logs⟩ := by
    intro r2
    simp only [setupServices, hb r2]
  rw [setupServices_append env g pre (bad :: post) r,
      setupServices_append env g pre post r,
      hsingle (setupServices env g r pre).router]
  simp [effectiveCfg_type]

/-- Witness for C8: a lone service entry of type `tcp` produces only the
unknown-type log line and an empty registry. -/
theorem unknown_type_entry_skipped_witness :
    (setupServices envOkW 0 (NewRouter configW) [cfgBadW]).logs
      = [SetupEvent.unknownType "tcp"] := by
  have h := (unknown_type_entry_skipped envOkW 0 (NewRouter configW) [] cfgBadW []
    (by decide) (by decide)).2.2.1
  simpa [setupServices, cfgBadW] using h

/-- C10: the buffer pool allocates fresh buffers of exactly the top-level
`BufferSize` with no lower bound, independently of any per-component
override (the router construction only reads the top-level size); with a
top-level size of 0, `GetBuffer` on a fresh router returns a zero-length
buffer. The exact-length statement assumes a nonnegative size, since Go
`make` panics on a negative one. -/
theorem fresh_buffer_exact_size (config : Config) :
    (0 ≤ config.bufferSize →
        (((GetBuffer (NewRouter config)).2.length : Int) = config.bufferSize))
    ∧ GetBuffer (NewRouter config) = (NewRouter config, newBuf config.bufferSize)
    ∧ NewRouter config = NewRouter { bufferSize := config.bufferSize, services := [] }
    ∧ (config.bufferSize = 0 → (GetBuffer (NewRouter config)).2 = []) := by
  refine ⟨?_, rfl, rfl, ?_⟩
  · intro h
    simp [GetBuffer, NewRouter, newBuf, Int.toNat_of_nonneg h]
  · intro h
    simp [GetBuffer, NewRouter, newBuf, h]

/-- Witness for C10: the concrete configuration with top-level buffer
size 0 makes `GetBuffer` on a fresh router return the empty buffer. -/
theorem fresh_buffer_exact_size_witness :
    (GetBuffer (NewRouter configW)).2 = [] :=
  (fresh_buffer_exact_size configW).2.2.2 rfl

end DoubleUdp
